import Mathlib

/-!
Verification of the librespeed-go exporter core (`src/main.go`): the result
parser, the time-series builder, and the remote-write transmitter with its
retry/backoff policy.

The Go code is shallowly embedded:
* `prompb` records become plain structures (`Label`, `Sample`, `TimeSeries`).
* External effects (protobuf marshalling, snappy compression, the HTTP round
  trip, `rand.Intn`) are abstracted as function parameters supplied by the
  environment; the logic under verification is the repository's own code.
* A Go slice index that can be out of range (`ts.Samples[0]`) is modelled with
  `List.head?`; the `none` case corresponds to a runtime panic.
* The retry loop `for attempt := 0; attempt <= maxRetries; attempt++` is
  modelled by structural recursion on the remaining iteration count
  (`fuel = maxRetries + 1 - attempt`), starting from `fuel = maxRetries + 1`.
-/

namespace LibrespeedGo

/-- Label of a time series (mirrors `prompb.Label`). -/
structure Label where
  name : String
  value : String
deriving Repr, DecidableEq

/-- One metric sample (mirrors `prompb.Sample`: float64 value, int64
millisecond timestamp). -/
structure Sample where
  value : Float
  timestamp : Int
deriving Repr

/-- One time series (mirrors `prompb.TimeSeries`). -/
structure TimeSeries where
  labels : List Label
  samples : List Sample
deriving Repr

/-- Server info of a speed-test result (mirrors `ServerInfo` in main.go). -/
structure ServerInfo where
  id : Int
  url : String
deriving Repr

/-- One parsed speed-test outcome (mirrors `LibrespeedResult` in main.go). -/
structure LibrespeedResult where
  download : Float
  upload : Float
  ping : Float
  jitter : Float
  server : ServerInfo
deriving Repr

/-! ## Result Parser (main.go lines 187-201, inside `runLibrespeed`)

The call to `json.Unmarshal` (Go standard library) is abstracted: its outcome
is an `Option (List LibrespeedResult)`, `none` when the bytes are not a valid
JSON array of result objects. The repository's own decision logic — parse
error, empty-array error, take the first element — is embedded verbatim. -/

/-- Decision logic of `runLibrespeed` after the external tool ran:
`none` models a `json.Unmarshal` failure, `some results` a successful parse.
Error strings are the ones in main.go. -/
def runLibrespeedParse : Option (List LibrespeedResult) → Except String LibrespeedResult
  | none => Except.error "failed to parse JSON"
  | some [] => Except.error "no results returned from librespeed-cli"
  | some (r :: _) => Except.ok r

/-! ## Time-Series Builder (main.go lines 204-224 and 439-445) -/

/-- Mirrors `createTimeSeries` in main.go: three labels in insertion order
`__name__`, `server_url`, `instance`, and a single sample. -/
def createTimeSeries (metric : String) (value : Float) (ts : Int)
    (serverURL instanceName : String) : TimeSeries :=
  { labels := [⟨"__name__", metric⟩, ⟨"server_url", serverURL⟩,
               ⟨"instance", instanceName⟩],
    samples := [⟨value, ts⟩] }

/-- Mirrors `getLabelValue` in main.go: first matching label value, else "". -/
def getLabelValue : List Label → String → String
  | [], _ => ""
  | l :: rest, n => if l.name = n then l.value else getLabelValue rest n

/-- Mirrors the batch construction in `main` (main.go lines 439-445): the four
series built from one measurement, one timestamp and one hostname. -/
def buildSeries (result : LibrespeedResult) (now : Int) (hostname : String) :
    List TimeSeries :=
  [createTimeSeries "librespeed_download_mbps" result.download now result.server.url hostname,
   createTimeSeries "librespeed_upload_mbps" result.upload now result.server.url hostname,
   createTimeSeries "librespeed_ping_ms" result.ping now result.server.url hostname,
   createTimeSeries "librespeed_jitter_ms" result.jitter now result.server.url hostname]

/-! ## Remote-Write Transmitter: single attempt (main.go lines 226-292) -/

/-- HTTP response as seen by the sender (mirrors the fields of
`http.Response` that `sendToRemoteWrite` reads: `StatusCode`, `Status`,
`Body`). -/
structure HttpResponse where
  statusCode : Nat
  status : String
  body : String
deriving Repr, DecidableEq

/-- HTTP request as built by `sendToRemoteWrite` (method, URL, headers,
basic-auth credentials, client timeout in seconds, body bytes). -/
structure HttpRequest where
  method : String
  url : String
  headers : List (String × String)
  basicAuthUser : String
  basicAuthPass : String
  timeoutSeconds : Nat
  body : List Nat
deriving Repr, DecidableEq

/-- External capabilities used by one delivery attempt: protobuf
serialization (`req.Marshal`), snappy compression (`snappy.Encode`), and the
HTTP round trip (`client.Do`, whose `Except.error` case covers request
creation and transport failures). -/
structure NetEnv where
  marshal : List TimeSeries → Except String (List Nat)
  snappyEncode : List Nat → List Nat
  doRequest : HttpRequest → Except String HttpResponse

/-- Errors returned by `sendToRemoteWrite`, one constructor per `fmt.Errorf`
site in main.go lines 226-292. -/
inductive SendError where
  | emptyBatch
  | marshalFailed (detail : String)
  | requestFailed (detail : String)
  | remoteWriteFailed (status : String) (respBody : String)
deriving Repr, DecidableEq

/-- Rendering of each `SendError` as the Go error message produced by the
corresponding `fmt.Errorf` call (`%s`/`%v` verbs inlined). -/
def SendError.message : SendError → String
  | .emptyBatch => "no time series data to send"
  | .marshalFailed detail => "failed to marshal protobuf: " ++ detail
  | .requestFailed detail => "failed to send HTTP request: " ++ detail
  | .remoteWriteFailed status respBody =>
      "remote_write failed: " ++ status ++ " - " ++ respBody

/-- Outcome of one delivery attempt. `panic` models the Go runtime panic
raised by an out-of-range slice index. -/
inductive AttemptOutcome where
  | panic
  | failure (e : SendError)
  | success
deriving Repr, DecidableEq

/-- Result of one delivery attempt together with the HTTP requests it issued
(used to express that some failure paths never touch the network). -/
structure AttemptResult where
  outcome : AttemptOutcome
  requests : List HttpRequest
deriving Repr, DecidableEq

/-- The logging loop of `sendToRemoteWrite` (main.go lines 233-243): for each
series it reads the label values and `ts.Samples[0]`. The `Samples[0]` index
has no bounds check; `none` models the index-out-of-range panic. -/
def logSamples : List TimeSeries → Option (List (String × String × String × Float × Int))
  | [] => some []
  | ts :: rest =>
    match ts.samples.head? with
    | none => none
    | some s =>
      (logSamples rest).map (fun l =>
        (getLabelValue ts.labels "__name__", getLabelValue ts.labels "server_url",
         getLabelValue ts.labels "instance", s.value, s.timestamp) :: l)

/-- The HTTP request built by `sendToRemoteWrite` (main.go lines 257-271):
POST, the three fixed headers, basic auth, 30-second client timeout, and the
compressed payload as body. -/
def remoteWriteRequest (url username password : String) (compressed : List Nat) :
    HttpRequest :=
  { method := "POST"
    url := url
    headers := [("Content-Encoding", "snappy"),
                ("Content-Type", "application/x-protobuf"),
                ("X-Prometheus-Remote-Write-Version", "0.1.0")]
    basicAuthUser := username
    basicAuthPass := password
    timeoutSeconds := 30
    body := compressed }

/-- Mirrors `sendToRemoteWrite` in main.go: empty-batch check, logging loop
(with its unchecked `Samples[0]` access), protobuf marshal, snappy
compression, HTTP POST, and the `resp.StatusCode >= 300` failure test with
the response body included in the error. -/
def sendToRemoteWrite (env : NetEnv) (url username password : String)
    (series : List TimeSeries) : AttemptResult :=
  if series.length = 0 then
    { outcome := .failure .emptyBatch, requests := [] }
  else
    match logSamples series with
    | none => { outcome := .panic, requests := [] }
    | some _ =>
      match env.marshal series with
      | .error detail => { outcome := .failure (.marshalFailed detail), requests := [] }
      | .ok data =>
        let compressed := env.snappyEncode data
        let httpReq := remoteWriteRequest url username password compressed
        match env.doRequest httpReq with
        | .error detail =>
            { outcome := .failure (.requestFailed detail), requests := [httpReq] }
        | .ok resp =>
          if 300 ≤ resp.statusCode then
            { outcome := .failure (.remoteWriteFailed resp.status resp.body),
              requests := [httpReq] }
          else
            { outcome := .success, requests := [httpReq] }

/-! ## Remote-Write Transmitter: retry wrapper (main.go lines 294-333) -/

/-- Occurrence of `sub` as a contiguous run inside a character list. -/
def charListContains (sub : List Char) : List Char → Bool
  | [] => sub.isEmpty
  | c :: rest => List.isPrefixOf sub (c :: rest) || charListContains sub rest

/-- Go `strings.Contains s sub`. -/
def stringsContains (s sub : String) : Bool :=
  charListContains sub.toList s.toList

/-- The non-retryable classification of `sendToRemoteWriteWithRetry`
(main.go lines 325-326), in the source's test order. -/
def nonRetryableError (msg : String) : Bool :=
  stringsContains msg "401" || stringsContains msg "403" ||
  stringsContains msg "400" || stringsContains msg "404"

/-- Mirrors `retryDelayFunc` in main.go: `(1 << (attempt-1)) +
rand.Intn(1 << (attempt-1))`, capped at 30, in whole seconds. The random
draw is abstracted as `randIntn`, where `randIntn n` models `rand.Intn n`
(a value in `[0, n)`). -/
def retryDelayFunc (randIntn : Nat → Nat) (attempt : Nat) : Nat :=
  let backoffSeconds := (1 <<< (attempt - 1)) + randIntn (1 <<< (attempt - 1))
  if backoffSeconds > 30 then 30 else backoffSeconds

/-- The terminal error of `sendToRemoteWriteWithRetry` (main.go line 332):
`fmt.Errorf("failed after %d attempts, last error: %v", maxRetries+1,
lastErr)` — it carries an attempt count and the last underlying error. -/
structure FinalError where
  reportedAttempts : Nat
  lastErr : Option String
deriving Repr, DecidableEq

/-- Observable trace of one `sendToRemoteWriteWithRetry` run: how many
delivery attempts were made, before which attempt indices a backoff sleep was
taken, and the final result (`none` = success). -/
structure RetryOutcome where
  attemptsMade : Nat
  sleptBefore : List Nat
  result : Option FinalError
deriving Repr, DecidableEq

/-- The loop body of `sendToRemoteWriteWithRetry` (main.go lines 306-330),
by structural recursion on the remaining iteration count
(`fuel = maxRetries + 1 - attempt`). Each delivery attempt is abstracted as
`attemptErr i` — `none` for success, `some msg` for a failure whose
`err.Error()` string is `msg`. `attemptsMade` and `sleptBefore` count from
the current iteration on. -/
def retryLoop (attemptErr : Nat → Option String) (maxRetries : Nat) :
    Nat → Nat → Option String → RetryOutcome
  | 0, _, lastErr =>
    { attemptsMade := 0, sleptBefore := [],
      result := some ⟨maxRetries + 1, lastErr⟩ }
  | fuel + 1, attempt, _ =>
    let sleeps : List Nat := if 0 < attempt then [attempt] else []
    match attemptErr attempt with
    | none => { attemptsMade := 1, sleptBefore := sleeps, result := none }
    | some msg =>
      if nonRetryableError msg then
        { attemptsMade := 1, sleptBefore := sleeps,
          result := some ⟨maxRetries + 1, some msg⟩ }
      else
        let rest := retryLoop attemptErr maxRetries fuel (attempt + 1) (some msg)
        { attemptsMade := rest.attemptsMade + 1,
          sleptBefore := sleeps ++ rest.sleptBefore,
          result := rest.result }

/-- Mirrors `sendToRemoteWriteWithRetry` in main.go: run the loop from
attempt 0 with `lastErr = nil` and `maxRetries + 1` available iterations. -/
def sendToRemoteWriteWithRetry (attemptErr : Nat → Option String)
    (maxRetries : Nat) : RetryOutcome :=
  retryLoop attemptErr maxRetries (maxRetries + 1) 0 none

/-! ## Helper lemmas about the retry loop -/

/-- When every attempt in the remaining window fails with a retryable error,
the loop uses up all of its remaining iterations. -/
theorem retryLoop_all_retryable (attemptErr : Nat → Option String) (maxRetries : Nat) :
    ∀ fuel attempt lastErr,
      (∀ i, i < attempt + fuel → ∃ m, attemptErr i = some m ∧ nonRetryableError m = false) →
      (retryLoop attemptErr maxRetries fuel attempt lastErr).attemptsMade = fuel := by
  intro fuel
  induction fuel with
  | zero => intro attempt lastErr _; rfl
  | succ n ih =>
    intro attempt lastErr h
    obtain ⟨m, hm, hnr⟩ := h attempt (by omega)
    have hrest := ih (attempt + 1) (some m) (fun i hi => h i (by omega))
    simp [retryLoop, hm, hnr, hrest]

/-- When every attempt in the remaining window fails, the loop ends in the
terminal error: it always reports `maxRetries + 1` attempts, and its last
underlying error is the error of the last attempt actually performed. -/
theorem retryLoop_all_fail (attemptErr : Nat → Option String) (maxRetries : Nat) :
    ∀ fuel attempt lastErr,
      (∀ i, i < attempt + fuel → (attemptErr i).isSome) →
      (0 < fuel → 0 < (retryLoop attemptErr maxRetries fuel attempt lastErr).attemptsMade) ∧
      (retryLoop attemptErr maxRetries fuel attempt lastErr).attemptsMade ≤ fuel ∧
      ∃ e, (retryLoop attemptErr maxRetries fuel attempt lastErr).result = some e ∧
        e.reportedAttempts = maxRetries + 1 ∧
        e.lastErr = (if (retryLoop attemptErr maxRetries fuel attempt lastErr).attemptsMade = 0
                     then lastErr
                     else attemptErr (attempt + (retryLoop attemptErr maxRetries fuel attempt lastErr).attemptsMade - 1)) := by
  intro fuel
  induction fuel with
  | zero =>
    intro attempt lastErr _
    exact ⟨by omega, by simp [retryLoop], ⟨maxRetries + 1, lastErr⟩, rfl, rfl, by simp [retryLoop]⟩
  | succ n ih =>
    intro attempt lastErr h
    obtain ⟨m, hm⟩ := Option.isSome_iff_exists.mp (h attempt (by omega))
    by_cases hnr : nonRetryableError m = true
    · have hred :
          retryLoop attemptErr maxRetries (n + 1) attempt lastErr =
            { attemptsMade := 1,
              sleptBefore := if 0 < attempt then [attempt] else [],
              result := some ⟨maxRetries + 1, some m⟩ } := by
        simp [retryLoop, hm, hnr]
      rw [hred]
      exact ⟨fun _ => Nat.one_pos, by show 1 ≤ n + 1; omega,
        ⟨maxRetries + 1, some m⟩, rfl, rfl, by simp [hm]⟩
    · have hnr' : nonRetryableError m = false := by
        simpa using hnr
      obtain ⟨ihpos, ihle, e, ihres, ihrep, ihlast⟩ :=
        ih (attempt + 1) (some m) (fun i hi => h i (by omega))
      simp only [retryLoop, hm, hnr', Bool.false_eq_true, if_false]
      refine ⟨by omega, by omega, e, ihres, ihrep, ?_⟩
      rw [ihlast]
      rcases Nat.eq_zero_or_pos (retryLoop attemptErr maxRetries n (attempt + 1) (some m)).attemptsMade with h0 | hposr
      · rw [if_pos h0, if_neg (by omega), h0]
        simp [hm]
      · rw [if_neg (by omega), if_neg (by omega)]
        congr 1
        omega

/-! ## Claims about the retry wrapper -/

/-- C1: for every maxRetries N and attempt oracle in which every delivery
attempt up to index N fails with a retryable error (message not containing
400, 401, 403 or 404), `sendToRemoteWriteWithRetry` performs exactly N + 1
delivery attempts and returns a terminal error. Endpoint, credentials and the
(non-empty) series list are abstracted into the attempt oracle. -/
theorem retry_persistent_retryable_exhausts (attemptErr : Nat → Option String) (maxRetries : Nat)
    (h : ∀ i, i ≤ maxRetries → ∃ m, attemptErr i = some m ∧ nonRetryableError m = false) :
    (sendToRemoteWriteWithRetry attemptErr maxRetries).attemptsMade = maxRetries + 1 ∧
    ∃ e, (sendToRemoteWriteWithRetry attemptErr maxRetries).result = some e := by
  constructor
  · exact retryLoop_all_retryable attemptErr maxRetries (maxRetries + 1) 0 none
      (fun i hi => h i (by omega))
  · obtain ⟨-, -, e, he, -, -⟩ := retryLoop_all_fail attemptErr maxRetries (maxRetries + 1) 0 none
      (fun i hi => by obtain ⟨m, hm, -⟩ := h i (by omega); simp [hm])
    exact ⟨e, he⟩

/-- Witness for C1: a persistent HTTP-500 rejection with maxRetries = 3 gives
exactly 4 attempts and a terminal error (spec Scenario F). -/
theorem retry_persistent_retryable_exhausts_witness :
    (sendToRemoteWriteWithRetry
      (fun _ => some ((SendError.remoteWriteFailed "500 Internal Server Error" "boom").message)) 3).attemptsMade = 4 ∧
    ∃ e, (sendToRemoteWriteWithRetry
      (fun _ => some ((SendError.remoteWriteFailed "500 Internal Server Error" "boom").message)) 3).result = some e :=
  retry_persistent_retryable_exhausts _ 3 (fun _ _ => ⟨_, rfl, rfl⟩)

/-- C2: when the first delivery attempt fails with a message indicating HTTP
status 400, 401, 403 or 404, the wrapper stops immediately: exactly one
attempt, no backoff sleep, and the terminal error carries that message. -/
theorem retry_stops_on_nonretryable_first (attemptErr : Nat → Option String) (maxRetries : Nat)
    (hN : 1 ≤ maxRetries) (msg : String)
    (h0 : attemptErr 0 = some msg) (hnr : nonRetryableError msg = true) :
    (sendToRemoteWriteWithRetry attemptErr maxRetries).attemptsMade = 1 ∧
    (sendToRemoteWriteWithRetry attemptErr maxRetries).sleptBefore = [] ∧
    (sendToRemoteWriteWithRetry attemptErr maxRetries).result =
      some ⟨maxRetries + 1, some msg⟩ := by
  refine ⟨?_, ?_, ?_⟩ <;> simp [sendToRemoteWriteWithRetry, retryLoop, h0, hnr]

/-- Witness for C2: a 403 rejection on the first attempt with maxRetries = 3
(spec Scenario E). -/
theorem retry_stops_on_nonretryable_first_witness :
    (sendToRemoteWriteWithRetry
      (fun _ => some ((SendError.remoteWriteFailed "403 Forbidden" "auth denied").message)) 3).attemptsMade = 1 ∧
    (sendToRemoteWriteWithRetry
      (fun _ => some ((SendError.remoteWriteFailed "403 Forbidden" "auth denied").message)) 3).sleptBefore = [] ∧
    (sendToRemoteWriteWithRetry
      (fun _ => some ((SendError.remoteWriteFailed "403 Forbidden" "auth denied").message)) 3).result =
      some ⟨4, some ((SendError.remoteWriteFailed "403 Forbidden" "auth denied").message)⟩ :=
  retry_stops_on_nonretryable_first _ 3 (by omega) _ rfl rfl

/-- C3 counterexample: an attempt failing with the EmptyBatchError message
("no time series data to send") is NOT propagated immediately by the wrapper.
With maxRetries = 1 the wrapper performs a second attempt (after a backoff
sleep), refuting "exactly one attempt, no further attempts". -/
theorem emptyBatch_error_retried_counterexample :
    (sendToRemoteWriteWithRetry (fun _ => some SendError.emptyBatch.message) 1).attemptsMade = 2 ∧
    (sendToRemoteWriteWithRetry (fun _ => some SendError.emptyBatch.message) 1).attemptsMade ≠ 1 ∧
    (sendToRemoteWriteWithRetry (fun _ => some SendError.emptyBatch.message) 1).sleptBefore = [1] :=
  ⟨rfl, by decide, rfl⟩

/-- C3 amended: a failure whose message contains none of 400, 401, 403, 404 —
in particular the EmptyBatchError message "no time series data to send" and
an EncodingError message "failed to marshal protobuf: ..." (when its detail
contains none of those digit strings) — is classified retryable, so the
wrapper keeps retrying it until all maxRetries + 1 attempts are used. -/
theorem internal_errors_retried_until_exhaustion (maxRetries : Nat) (msg : String)
    (hnr : nonRetryableError msg = false) :
    (sendToRemoteWriteWithRetry (fun _ => some msg) maxRetries).attemptsMade = maxRetries + 1 ∧
    ∃ e, (sendToRemoteWriteWithRetry (fun _ => some msg) maxRetries).result = some e := by
  constructor
  · exact retryLoop_all_retryable (fun _ => some msg) maxRetries (maxRetries + 1) 0 none
      (fun i _ => ⟨msg, rfl, hnr⟩)
  · obtain ⟨-, -, e, he, -, -⟩ := retryLoop_all_fail (fun _ => some msg) maxRetries
      (maxRetries + 1) 0 none (fun i _ => rfl)
    exact ⟨e, he⟩

/-- Witness for the amended C3: the EmptyBatchError message with
maxRetries = 2 is retried to 3 attempts. -/
theorem internal_errors_retried_until_exhaustion_witness :
    (sendToRemoteWriteWithRetry (fun _ => some SendError.emptyBatch.message) 2).attemptsMade = 3 ∧
    ∃ e, (sendToRemoteWriteWithRetry (fun _ => some SendError.emptyBatch.message) 2).result = some e :=
  internal_errors_retried_until_exhaustion 2 _ rfl

/-- C4 counterexample: stopping early on a 403 rejection with maxRetries = 3,
only 1 attempt is performed, yet the terminal error reports 4 attempts (the
configured maximum), refuting "the reported attempt count equals the number
of attempts actually performed". -/
theorem reported_attempts_mismatch_counterexample :
    (sendToRemoteWriteWithRetry
      (fun _ => some ((SendError.remoteWriteFailed "403 Forbidden" "denied").message)) 3).attemptsMade = 1 ∧
    ∃ e, (sendToRemoteWriteWithRetry
        (fun _ => some ((SendError.remoteWriteFailed "403 Forbidden" "denied").message)) 3).result = some e ∧
      e.reportedAttempts = 4 ∧ e.reportedAttempts ≠ 1 :=
  ⟨rfl, ⟨4, some ((SendError.remoteWriteFailed "403 Forbidden" "denied").message)⟩, rfl, rfl, by decide⟩

/-- C4 amended: whenever no attempt succeeds, the terminal error always
reports maxRetries + 1 attempts — the configured maximum, even when retrying
stopped early — and includes the last underlying error, namely the error of
the last attempt actually performed. -/
theorem terminal_error_reports_configured_attempts (attemptErr : Nat → Option String)
    (maxRetries : Nat) (h : ∀ i, i ≤ maxRetries → (attemptErr i).isSome) :
    0 < (sendToRemoteWriteWithRetry attemptErr maxRetries).attemptsMade ∧
    ∃ e, (sendToRemoteWriteWithRetry attemptErr maxRetries).result = some e ∧
      e.reportedAttempts = maxRetries + 1 ∧
      e.lastErr = attemptErr ((sendToRemoteWriteWithRetry attemptErr maxRetries).attemptsMade - 1) := by
  simp only [sendToRemoteWriteWithRetry]
  obtain ⟨hpos, -, e, he, hrep, hlast⟩ := retryLoop_all_fail attemptErr maxRetries
    (maxRetries + 1) 0 none (fun i hi => h i (by omega))
  have hp : 0 < (sendToRemoteWriteWithRetry attemptErr maxRetries).attemptsMade :=
    hpos (by omega)
  refine ⟨hp, e, he, hrep, ?_⟩
  rw [hlast, if_neg (by omega)]
  congr 1
  omega

/-- Witness for the amended C4: a persistent transport failure with
maxRetries = 1. -/
theorem terminal_error_reports_configured_attempts_witness :
    0 < (sendToRemoteWriteWithRetry (fun _ => some "failed to send HTTP request: connection refused") 1).attemptsMade ∧
    ∃ e, (sendToRemoteWriteWithRetry (fun _ => some "failed to send HTTP request: connection refused") 1).result = some e ∧
      e.reportedAttempts = 1 + 1 ∧
      e.lastErr = (fun _ => some "failed to send HTTP request: connection refused")
        ((sendToRemoteWriteWithRetry (fun _ => some "failed to send HTTP request: connection refused") 1).attemptsMade - 1) :=
  terminal_error_reports_configured_attempts _ 1 (fun _ _ => rfl)

/-- C5: for every retry attempt index a ≥ 1 and random draw below the base,
the computed backoff delay is min v 30 for a whole-second value v in
the interval from 2^(a-1) (inclusive) to 2^a (exclusive); in particular the
delay is strictly positive and at most 30 seconds. -/
theorem retryDelayFunc_bounds (randIntn : Nat → Nat) (attempt : Nat)
    (ha : 1 ≤ attempt) (hr : randIntn (2 ^ (attempt - 1)) < 2 ^ (attempt - 1)) :
    ∃ v, 2 ^ (attempt - 1) ≤ v ∧ v < 2 ^ attempt ∧
      retryDelayFunc randIntn attempt = min v 30 ∧
      0 < retryDelayFunc randIntn attempt ∧
      retryDelayFunc randIntn attempt ≤ 30 := by
  have hshift : (1 : Nat) <<< (attempt - 1) = 2 ^ (attempt - 1) := by
    rw [Nat.shiftLeft_eq, one_mul]
  have hsplit : 2 ^ attempt = 2 ^ (attempt - 1) + 2 ^ (attempt - 1) := by
    have hsucc : attempt - 1 + 1 = attempt := by omega
    have hpow2 : (2 : Nat) ^ (attempt - 1 + 1) = 2 ^ (attempt - 1) * 2 := pow_succ 2 (attempt - 1)
    rw [hsucc] at hpow2
    omega
  have hpow : 0 < 2 ^ (attempt - 1) := Nat.pos_pow_of_pos _ (by omega)
  have hval : retryDelayFunc randIntn attempt =
      min (2 ^ (attempt - 1) + randIntn (2 ^ (attempt - 1))) 30 := by
    simp only [retryDelayFunc, hshift]
    rcases le_or_lt (2 ^ (attempt - 1) + randIntn (2 ^ (attempt - 1))) 30 with hle | hgt
    · rw [if_neg (by omega), min_eq_left hle]
    · rw [if_pos (by omega), min_eq_right (by omega)]
  refine ⟨2 ^ (attempt - 1) + randIntn (2 ^ (attempt - 1)),
    Nat.le_add_right _ _, by omega, hval, ?_, ?_⟩
  · rw [hval]; omega
  · rw [hval]; omega

/-- Witness for C5: retry attempt 3 with random draw 2 gives a delay of
min 6 30 = 6 seconds, inside the interval from 4 to 8. -/
theorem retryDelayFunc_bounds_witness :
    ∃ v, 2 ^ (3 - 1) ≤ v ∧ v < 2 ^ 3 ∧
      retryDelayFunc (fun _ => 2) 3 = min v 30 ∧
      0 < retryDelayFunc (fun _ => 2) 3 ∧
      retryDelayFunc (fun _ => 2) 3 ≤ 30 :=
  retryDelayFunc_bounds (fun _ => 2) 3 (by omega) (by decide)

/-! ## Claims about the builder and the parser -/

/-- C6: for every measurement, timestamp and instance identifier the builder
deterministically produces exactly four series — download, upload, ping,
jitter — each with exactly one sample; all share the timestamp, the
server_url value and the instance value, and labels are inserted in the
order __name__, server_url, instance. -/
theorem buildSeries_exact_shape (result : LibrespeedResult) (now : Int) (hostname : String) :
    (buildSeries result now hostname).length = 4 ∧
    (buildSeries result now hostname).map TimeSeries.labels =
      [[⟨"__name__", "librespeed_download_mbps"⟩, ⟨"server_url", result.server.url⟩, ⟨"instance", hostname⟩],
       [⟨"__name__", "librespeed_upload_mbps"⟩, ⟨"server_url", result.server.url⟩, ⟨"instance", hostname⟩],
       [⟨"__name__", "librespeed_ping_ms"⟩, ⟨"server_url", result.server.url⟩, ⟨"instance", hostname⟩],
       [⟨"__name__", "librespeed_jitter_ms"⟩, ⟨"server_url", result.server.url⟩, ⟨"instance", hostname⟩]] ∧
    (buildSeries result now hostname).map TimeSeries.samples =
      [[⟨result.download, now⟩], [⟨result.upload, now⟩],
       [⟨result.ping, now⟩], [⟨result.jitter, now⟩]] :=
  ⟨rfl, rfl, rfl⟩

/-- C7: the Result Parser returns exactly the first element of the parsed
JSON array, ignoring any further elements; an unparsable input yields the
parse error, and a parsed array with zero elements yields the empty-result
error. The `json.Unmarshal` outcome is abstracted as the parser's input. -/
theorem runLibrespeedParse_first_or_error (r : LibrespeedResult) (rest : List LibrespeedResult) :
    runLibrespeedParse (some (r :: rest)) = Except.ok r ∧
    runLibrespeedParse none = Except.error "failed to parse JSON" ∧
    runLibrespeedParse (some []) = Except.error "no results returned from librespeed-cli" :=
  ⟨rfl, rfl, rfl⟩

/-! ## Claims about the single delivery attempt -/

/-- C8: with an empty series list a delivery attempt fails with the
EmptyBatchError and issues no HTTP request; because the environment `env` is
arbitrary and unused, the result does not depend on serialization,
compression or the network — the empty-batch check precedes them all. -/
theorem sendToRemoteWrite_empty_batch (env : NetEnv) (url username password : String) :
    sendToRemoteWrite env url username password [] =
      { outcome := AttemptOutcome.failure SendError.emptyBatch, requests := [] } :=
  rfl

/-- The logging loop fails (panics) exactly when some series has an empty
sample list. -/
theorem logSamples_eq_none_iff (series : List TimeSeries) :
    logSamples series = none ↔ ∃ ts ∈ series, ts.samples = [] := by
  induction series with
  | nil => simp [logSamples]
  | cons ts rest ih =>
    cases hs : ts.samples with
    | nil => simp [logSamples, hs]
    | cons a l => simp [logSamples, hs, Option.map_eq_none', ih]

/-- C10: a delivery attempt hits the unchecked `ts.Samples[0]` access (and
panics) exactly when the input contains a series whose sample list is empty;
under the precondition that every series carries at least one sample the
access is in bounds and no panic occurs. -/
theorem sendToRemoteWrite_panic_iff (env : NetEnv) (url username password : String)
    (series : List TimeSeries) :
    (sendToRemoteWrite env url username password series).outcome = AttemptOutcome.panic ↔
      ∃ ts ∈ series, ts.samples = [] := by
  by_cases hlen : series.length = 0
  · have hnil : series = [] := List.length_eq_zero.mp hlen
    subst hnil
    simp [sendToRemoteWrite]
  · cases hlog : logSamples series with
    | none =>
      simp only [sendToRemoteWrite, if_neg hlen, hlog]
      simpa using (logSamples_eq_none_iff series).mp hlog
    | some l =>
      have hnone : ¬ ∃ ts ∈ series, ts.samples = [] := by
        rw [← logSamples_eq_none_iff]
        simp [hlog]
      simp only [sendToRemoteWrite, if_neg hlen, hlog]
      cases hmar : env.marshal series with
      | error detail => simp [hnone]
      | ok data =>
        cases hdo : env.doRequest (remoteWriteRequest url username password (env.snappyEncode data)) with
        | error detail => simp [hdo, hnone]
        | ok resp =>
          by_cases hst : 300 ≤ resp.statusCode
          · simp [hdo, hst, hnone]
          · simp [hdo, hst, hnone]

/-- When every series carries at least one sample, the logging loop
succeeds. -/
theorem logSamples_isSome (series : List TimeSeries)
    (h : ∀ ts ∈ series, ts.samples ≠ []) : ∃ l, logSamples series = some l := by
  cases hlog : logSamples series with
  | none =>
    obtain ⟨ts, hts, hnil⟩ := (logSamples_eq_none_iff series).mp hlog
    exact absurd hnil (h ts hts)
  | some l => exact ⟨l, rfl⟩

/-- C9 counterexample: the code treats every response status below 300 as
success, not only those in the closed-open interval from 200 to 300. A
response with status 101 — outside that interval — is counted a success,
refuting "succeeds exactly when the response status code is in [200,300)". -/
theorem status_below_200_counted_success_counterexample :
    (sendToRemoteWrite
      { marshal := fun _ => Except.ok [7],
        snappyEncode := fun bs => bs,
        doRequest := fun _ => Except.ok { statusCode := 101, status := "101 Switching Protocols", body := "" } }
      "http://endpoint" "user" "pass"
      [createTimeSeries "librespeed_ping_ms" 1.5 1700000000000 "http://server" "host1"]).outcome =
      AttemptOutcome.success ∧
    ¬ (200 ≤ 101 ∧ 101 < 300) :=
  ⟨rfl, by decide⟩

/-- C9 amended: a delivery attempt that reaches the network issues exactly
one HTTP POST whose body is the snappy-compressed marshalled batch, with the
Content-Encoding, Content-Type and protocol-version headers, basic
authentication from the given credentials, and a 30-second timeout; on a
response it succeeds exactly when the status code is below 300 (statuses
below 200 included), and any status at or above 300 fails with an error
carrying the captured response body. -/
theorem sendToRemoteWrite_request_properties (env : NetEnv) (url username password : String)
    (series : List TimeSeries) (data : List Nat)
    (hne : series ≠ [])
    (hsafe : ∀ ts ∈ series, ts.samples ≠ [])
    (hm : env.marshal series = Except.ok data) :
    ((remoteWriteRequest url username password (env.snappyEncode data)).method = "POST" ∧
     (remoteWriteRequest url username password (env.snappyEncode data)).url = url ∧
     (remoteWriteRequest url username password (env.snappyEncode data)).headers =
       [("Content-Encoding", "snappy"), ("Content-Type", "application/x-protobuf"),
        ("X-Prometheus-Remote-Write-Version", "0.1.0")] ∧
     (remoteWriteRequest url username password (env.snappyEncode data)).basicAuthUser = username ∧
     (remoteWriteRequest url username password (env.snappyEncode data)).basicAuthPass = password ∧
     (remoteWriteRequest url username password (env.snappyEncode data)).timeoutSeconds = 30 ∧
     (remoteWriteRequest url username password (env.snappyEncode data)).body = env.snappyEncode data) ∧
    (sendToRemoteWrite env url username password series).requests =
      [remoteWriteRequest url username password (env.snappyEncode data)] ∧
    (∀ resp, env.doRequest (remoteWriteRequest url username password (env.snappyEncode data)) = Except.ok resp →
      ((sendToRemoteWrite env url username password series).outcome = AttemptOutcome.success ↔
        resp.statusCode < 300) ∧
      (300 ≤ resp.statusCode →
        (sendToRemoteWrite env url username password series).outcome =
          AttemptOutcome.failure (SendError.remoteWriteFailed resp.status resp.body))) ∧
    (∀ detail, env.doRequest (remoteWriteRequest url username password (env.snappyEncode data)) = Except.error detail →
      (sendToRemoteWrite env url username password series).outcome =
        AttemptOutcome.failure (SendError.requestFailed detail)) := by
  have hlen : ¬ series.length = 0 := by
    simpa [List.length_eq_zero] using hne
  obtain ⟨l, hl⟩ := logSamples_isSome series hsafe
  refine ⟨⟨rfl, rfl, rfl, rfl, rfl, rfl, rfl⟩, ?_, ?_, ?_⟩
  · simp only [sendToRemoteWrite, if_neg hlen, hl, hm]
    cases hdo : env.doRequest (remoteWriteRequest url username password (env.snappyEncode data)) with
    | error detail => simp
    | ok resp =>
      by_cases hst : 300 ≤ resp.statusCode
      · simp [hst]
      · simp [hst]
  · intro resp hresp
    constructor
    · simp only [sendToRemoteWrite, if_neg hlen, hl, hm, hresp]
      by_cases hst : 300 ≤ resp.statusCode
      · simp [hst]
      · simp [hst]
        omega
    · intro hst
      simp only [sendToRemoteWrite, if_neg hlen, hl, hm, hresp]
      simp [hst]
  · intro detail hdo
    simp only [sendToRemoteWrite, if_neg hlen, hl, hm, hdo]

/-- Witness for the amended C9: concrete environment returning status 204
with a one-series batch. -/
theorem sendToRemoteWrite_request_properties_witness :
    ((remoteWriteRequest "http://endpoint" "user" "pass"
        (NetEnv.snappyEncode
          { marshal := fun _ => Except.ok [7], snappyEncode := fun bs => 0 :: bs,
            doRequest := fun _ => Except.ok { statusCode := 204, status := "204 No Content", body := "" } }
          [7])).method = "POST" ∧
     (remoteWriteRequest "http://endpoint" "user" "pass"
        (NetEnv.snappyEncode
          { marshal := fun _ => Except.ok [7], snappyEncode := fun bs => 0 :: bs,
            doRequest := fun _ => Except.ok { statusCode := 204, status := "204 No Content", body := "" } }
          [7])).url = "http://endpoint" ∧
     (remoteWriteRequest "http://endpoint" "user" "pass"
        (NetEnv.snappyEncode
          { marshal := fun _ => Except.ok [7], snappyEncode := fun bs => 0 :: bs,
            doRequest := fun _ => Except.ok { statusCode := 204, status := "204 No Content", body := "" } }
          [7])).headers =
       [("Content-Encoding", "snappy"), ("Content-Type", "application/x-protobuf"),
        ("X-Prometheus-Remote-Write-Version", "0.1.0")] ∧
     (remoteWriteRequest "http://endpoint" "user" "pass"
        (NetEnv.snappyEncode
          { marshal := fun _ => Except.ok [7], snappyEncode := fun bs => 0 :: bs,
            doRequest := fun _ => Except.ok { statusCode := 204, status := "204 No Content", body := "" } }
          [7])).basicAuthUser = "user" ∧
     (remoteWriteRequest "http://endpoint" "user" "pass"
        (NetEnv.snappyEncode
          { marshal := fun _ => Except.ok [7], snappyEncode := fun bs => 0 :: bs,
            doRequest := fun _ => Except.ok { statusCode := 204, status := "204 No Content", body := "" } }
          [7])).basicAuthPass = "pass" ∧
     (remoteWriteRequest "http://endpoint" "user" "pass"
        (NetEnv.snappyEncode
          { marshal := fun _ => Except.ok [7], snappyEncode := fun bs => 0 :: bs,
            doRequest := fun _ => Except.ok { statusCode := 204, status := "204 No Content", body := "" } }
          [7])).timeoutSeconds = 30 ∧
     (remoteWriteRequest "http://endpoint" "user" "pass"
        (NetEnv.snappyEncode
          { marshal := fun _ => Except.ok [7], snappyEncode := fun bs => 0 :: bs,
            doRequest := fun _ => Except.ok { statusCode := 204, status := "204 No Content", body := "" } }
          [7])).body =
       NetEnv.snappyEncode
         { marshal := fun _ => Except.ok [7], snappyEncode := fun bs => 0 :: bs,
           doRequest := fun _ => Except.ok { statusCode := 204, status := "204 No Content", body := "" } }
         [7]) ∧
    (sendToRemoteWrite
        { marshal := fun _ => Except.ok [7], snappyEncode := fun bs => 0 :: bs,
          doRequest := fun _ => Except.ok { statusCode := 204, status := "204 No Content", body := "" } }
        "http://endpoint" "user" "pass"
        [createTimeSeries "librespeed_ping_ms" 1.5 1700000000000 "http://server" "host1"]).requests =
      [remoteWriteRequest "http://endpoint" "user" "pass"
        (NetEnv.snappyEncode
          { marshal := fun _ => Except.ok [7], snappyEncode := fun bs => 0 :: bs,
            doRequest := fun _ => Except.ok { statusCode := 204, status := "204 No Content", body := "" } }
          [7])] ∧
    (∀ resp,
      NetEnv.doRequest
          { marshal := fun _ => Except.ok [7], snappyEncode := fun bs => 0 :: bs,
            doRequest := fun _ => Except.ok { statusCode := 204, status := "204 No Content", body := "" } }
          (remoteWriteRequest "http://endpoint" "user" "pass"
            (NetEnv.snappyEncode
              { marshal := fun _ => Except.ok [7], snappyEncode := fun bs => 0 :: bs,
                doRequest := fun _ => Except.ok { statusCode := 204, status := "204 No Content", body := "" } }
              [7])) = Except.ok resp →
      ((sendToRemoteWrite
          { marshal := fun _ => Except.ok [7], snappyEncode := fun bs => 0 :: bs,
            doRequest := fun _ => Except.ok { statusCode := 204, status := "204 No Content", body := "" } }
          "http://endpoint" "user" "pass"
          [createTimeSeries "librespeed_ping_ms" 1.5 1700000000000 "http://server" "host1"]).outcome =
          AttemptOutcome.success ↔ resp.statusCode < 300) ∧
      (300 ≤ resp.statusCode →
        (sendToRemoteWrite
            { marshal := fun _ => Except.ok [7], snappyEncode := fun bs => 0 :: bs,
              doRequest := fun _ => Except.ok { statusCode := 204, status := "204 No Content", body := "" } }
            "http://endpoint" "user" "pass"
            [createTimeSeries "librespeed_ping_ms" 1.5 1700000000000 "http://server" "host1"]).outcome =
          AttemptOutcome.failure (SendError.remoteWriteFailed resp.status resp.body))) ∧
    (∀ detail,
      NetEnv.doRequest
          { marshal := fun _ => Except.ok [7], snappyEncode := fun bs => 0 :: bs,
            doRequest := fun _ => Except.ok { statusCode := 204, status := "204 No Content", body := "" } }
          (remoteWriteRequest "http://endpoint" "user" "pass"
            (NetEnv.snappyEncode
              { marshal := fun _ => Except.ok [7], snappyEncode := fun bs => 0 :: bs,
                doRequest := fun _ => Except.ok { statusCode := 204, status := "204 No Content", body := "" } }
              [7])) = Except.error detail →
      (sendToRemoteWrite
          { marshal := fun _ => Except.ok [7], snappyEncode := fun bs => 0 :: bs,
            doRequest := fun _ => Except.ok { statusCode := 204, status := "204 No Content", body := "" } }
          "http://endpoint" "user" "pass"
          [createTimeSeries "librespeed_ping_ms" 1.5 1700000000000 "http://server" "host1"]).outcome =
        AttemptOutcome.failure (SendError.requestFailed detail)) :=
  sendToRemoteWrite_request_properties _ "http://endpoint" "user" "pass"
    [createTimeSeries "librespeed_ping_ms" 1.5 1700000000000 "http://server" "host1"] [7]
    (List.cons_ne_nil _ _)
    (by
      intro ts hts
      rw [List.mem_singleton] at hts
      subst hts
      exact List.cons_ne_nil _ _)
    rfl

end LibrespeedGo
